import Mathlib

/-!
Shallow embedding of the client-side model-generation core of the
"3D Model Magic" React application (src/index.js): the input validator,
the generation dispatcher with its placeholder fallback, the payment
gate, and the user-plan lookup.

Modelling conventions:
* JavaScript strings are Lean String; a possibly-undefined/null string
  is Option String (none = undefined or null).
* JavaScript numbers that flow through the validator are Option JsNum,
  where JsNum is a fraction of an Int numerator over a positive Nat
  denominator (kept unnormalized so every operation evaluates by kernel
  reduction): none stands for NaN / undefined (every comparison against
  none is false, matching NaN semantics). Number() is modelled as the
  exact rational value of the numeral; the float64 overflow-to-Infinity
  and underflow-to-zero behaviour that the source observes through
  Number.isFinite and n greater than 0 is applied by finitePositive,
  whose two thresholds are exact for round-to-nearest, ties-to-even.
* React state setters are modelled by explicit record updates on
  AppState; values captured by a render closure (user, userPlan and the
  current modelUrl) are passed as separate arguments, since setters
  inside one invocation do not change the captured bindings.
* Network activity is recorded as a list of issued requests; the
  environment (Env) predetermines each exchange's outcome.
* toast notifications and analytics events parallel the inline error
  message and are not modelled.
-/

namespace Amodei

/-- The apostrophe character (codepoint 39). -/
def apos : Char := Char.ofNat 39

/-- The whitespace set of JavaScript String.prototype.trim and of the
Number() conversion: tab, line feed, vertical tab, form feed, carriage
return, space, no-break space, Ogham space mark, the en-quad..hair-space
range, line separator, paragraph separator, narrow no-break space,
medium mathematical space, ideographic space and the byte-order mark. -/
def jsWhitespace (c : Char) : Bool :=
  let n := c.toNat
  n == 0x09 || n == 0x0a || n == 0x0b || n == 0x0c || n == 0x0d || n == 0x20 ||
  n == 0xa0 || n == 0x1680 || (decide (0x2000 ≤ n) && decide (n ≤ 0x200a)) ||
  n == 0x2028 || n == 0x2029 || n == 0x202f || n == 0x205f || n == 0x3000 || n == 0xfeff

/-- Model of JavaScript String.prototype.trim: drop leading and trailing
whitespace. -/
def jsTrim (s : String) : String :=
  ⟨((s.data.dropWhile jsWhitespace).reverse.dropWhile jsWhitespace).reverse⟩

/-- Replacement for one character under sanitizeInput's regular expression
replace (src/index.js:155-159): the characters & < > " and apostrophe are
replaced by their HTML entities, every other character is kept. -/
def sanitizeChar (c : Char) : List Char :=
  if c == '&' then "&amp;".data
  else if c == '<' then "&lt;".data
  else if c == '>' then "&gt;".data
  else if c == '"' then "&quot;".data
  else if c == apos then "&#x27;".data
  else [c]

/-- Character-list form of sanitizeInput. -/
def sanitizeL : List Char → List Char
  | [] => []
  | c :: t => sanitizeChar c ++ sanitizeL t

/-- sanitizeInput (src/index.js:155-159): input.replace of the characters
matched by the class [&<>"'] with their HTML entities. -/
def sanitizeInput (s : String) : String :=
  ⟨sanitizeL s.data⟩

/-- Value of a list of decimal digit characters. -/
def natOfDigits (l : List Char) : Nat :=
  l.foldl (fun n c => 10 * n + (c.toNat - 48)) 0

/-- Every character of the list is a decimal digit. -/
def allDigits (l : List Char) : Bool :=
  l.all fun c => c.isDigit

/-- A finite JavaScript number, represented exactly as an unnormalized
fraction: num over den, with den positive in every value the embedding
constructs. -/
structure JsNum where
  num : Int
  den : Nat
deriving DecidableEq

/-- Numeric strict order on JsNum fractions (cross multiplication),
modelling the JavaScript comparison on finite numbers. -/
def JsNum.blt (a b : JsNum) : Bool :=
  decide (a.num * (b.den : Int) < b.num * (a.den : Int))

/-- The rational value of a JsNum fraction. -/
def JsNum.val (a : JsNum) : ℚ := (a.num : ℚ) / (a.den : ℚ)

/-- Powers of ten. -/
def pow10 : Nat → Nat
  | 0 => 1
  | n + 1 => 10 * pow10 n

/-- Parse an unsigned decimal mantissa (digits, optionally with one
decimal point; at least one digit overall), as a numerator together
with the number of fractional digits. -/
def parseMantissa (l : List Char) : Option (Nat × Nat) :=
  let ip := l.takeWhile fun c => c != '.'
  match l.dropWhile (fun c => c != '.') with
  | [] => if ip.isEmpty then none else if allDigits ip then some (natOfDigits ip, 0) else none
  | _ :: frac =>
    if allDigits ip && allDigits frac && !(ip.isEmpty && frac.isEmpty) then
      some (natOfDigits (ip ++ frac), frac.length)
    else none

/-- Parse an optionally signed decimal exponent. -/
def parseExpPart (l : List Char) : Option Int :=
  match l with
  | '-' :: ds => if ds.isEmpty || !(allDigits ds) then none else some (-(natOfDigits ds : Int))
  | '+' :: ds => if ds.isEmpty || !(allDigits ds) then none else some (natOfDigits ds : Int)
  | ds => if ds.isEmpty || !(allDigits ds) then none else some (natOfDigits ds : Int)

/-- Exponent marker of a decimal numeral. -/
def isExpChar (c : Char) : Bool := c == 'e' || c == 'E'

/-- Model of the JavaScript Number() conversion on the strings this
application feeds it (form fields of type number): trimmed empty string
is 0, otherwise an optionally signed decimal numeral with optional
fraction and exponent, taken at its exact rational value. The float64
rounding of that value to Infinity or to zero is observed only through
Number.isFinite and the comparison with 0 in validDimension, and is
applied there by finitePositive. NaN maps to none. Hexadecimal and
Infinity literals, which number-typed form fields never produce, are
not modelled and also map to none (for Infinity this is observationally
equal in validDimension, where Number.isFinite rejects it). -/
def jsNumber (s : String) : Option JsNum :=
  let t := (jsTrim s).data
  if t.isEmpty then some ⟨0, 1⟩
  else
    let sb : Int × List Char :=
      match t with
      | '-' :: r => (-1, r)
      | '+' :: r => (1, r)
      | r => (1, r)
    let m := sb.2.takeWhile fun c => !(isExpChar c)
    let ex : Option Int :=
      match sb.2.dropWhile (fun c => !(isExpChar c)) with
      | [] => some 0
      | _ :: el => parseExpPart el
    match parseMantissa m, ex with
    | some mf, some e =>
      let p : Int := e - (mf.2 : Int)
      if 0 ≤ p then some ⟨sb.1 * (mf.1 : Int) * (pow10 p.toNat : Int), 1⟩
      else some ⟨sb.1 * (mf.1 : Int), pow10 (-p).toNat⟩
    | _, _ => none

/-- JavaScript truthiness of a possibly-absent string: null/undefined and
the empty string are falsy, every other string is truthy. -/
def jsTruthyOpt : Option String → Bool
  | none => false
  | some s => !(s == "")

/-- The smallest positive value that float64 rounds away from zero:
exact values in the interval from 0 to 2 to the power -1075, endpoint
included (the halfway point below the least subnormal, which ties-to-even
sends to 0), round to 0 and fail the n greater than 0 check; anything
above rounds to a positive double. The denominator is the numeral of
2 to the power 1075, certified by f64UnderflowThreshold_eq. -/
def f64UnderflowThreshold : JsNum :=
  ⟨1, 404804506614621236704990693437834614099113299528284236713802716054860679135990693783920767402874248990374155728633623822779617474771586953734026799881477019843034848553132722728933815484186432682479535356945490137124014966849385397236206711298319112681620113024717539104666829230461005064372655017292012526615415482186989568⟩

/-- The float64 overflow boundary: exact values at or above 2 to the
power 1024 minus 2 to the power 970 (the halfway point above the largest
finite double, which ties-to-even sends to Infinity) round to Infinity
and fail Number.isFinite; anything below rounds to a finite double. The
numerator is the numeral of that power difference, certified by
f64OverflowThreshold_eq. -/
def f64OverflowThreshold : JsNum :=
  ⟨179769313486231580793728971405303415079934132710037826936173778980444968292764750946649017977587207096330286416692887910946555547851940402630657488671505820681908902000708383676273854845817711531764475730270069855571366959622842914819860834936475292719074168444365510704342711559699508093042880177904174497792, 1⟩

/-- Number.isFinite(n) combined with n greater than 0, evaluated on the
exact rational value of the numeral: the float64 conversion yields a
finite positive double exactly when the exact value lies strictly
between the underflow and the overflow thresholds. -/
def finitePositive (q : JsNum) : Bool :=
  JsNum.blt f64UnderflowThreshold q && JsNum.blt q f64OverflowThreshold

/-- validDimension (src/index.js:146-150): falsy values are invalid,
otherwise the Number() conversion must be finite and greater than 0. -/
def validDimension (v : Option String) : Bool :=
  if !(jsTruthyOpt v) then false
  else
    match jsNumber (v.getD "") with
    | none => false
    | some n => finitePositive n

/-- JavaScript comparison x < y where x may be NaN/undefined (none):
comparisons against NaN are false. -/
def jsLtN : Option JsNum → JsNum → Bool
  | none, _ => false
  | some q, y => JsNum.blt q y

/-- JavaScript comparison x > y where x may be NaN/undefined (none). -/
def jsGtN : Option JsNum → JsNum → Bool
  | none, _ => false
  | some q, y => JsNum.blt y q

/-- The four validation failures of generateModel, in source order
(src/index.js:749-768). -/
inductive VErr where
  | missingInput
  | invalidDimension
  | invalidInfill
  | invalidShellThickness
deriving DecidableEq

/-- The validation prefix of generateModel (src/index.js:748-768): the
four early-return checks, applied in source order to the sanitized
trimmed prompt, the reference image, the three dimension strings and the
numeric infill and shell-thickness values. -/
def validate (prompt : String) (image w h d : Option String)
    (infill shell : Option JsNum) : Option VErr :=
  if sanitizeInput (jsTrim prompt) == "" && !(jsTruthyOpt image) then some .missingInput
  else if !(validDimension w && validDimension h && validDimension d) then some .invalidDimension
  else if jsLtN infill ⟨0, 1⟩ || jsGtN infill ⟨100, 1⟩ then some .invalidInfill
  else if jsLtN shell ⟨4, 10⟩ then some .invalidShellThickness
  else none

/-- The inline error message set for each validation failure. -/
def errMsg : VErr → String
  | .missingInput => "Please provide a description or upload an image."
  | .invalidDimension => "Enter valid width, height, and depth in millimeters (numbers > 0)."
  | .invalidInfill => "Infill must be between 0 and 100%."
  | .invalidShellThickness => "Shell thickness must be at least 0.4mm."

/-- Model of JavaScript String.prototype.startsWith on character lists. -/
def listStarts : List Char → List Char → Bool
  | _, [] => true
  | [], _ :: _ => false
  | a :: s, b :: p => a == b && listStarts s p

/-- Model of JavaScript String.prototype.startsWith. -/
def strStarts (s pat : String) : Bool :=
  listStarts s.data pat.data

/-- Contiguous-substring test on character lists. -/
def hasSubL : List Char → List Char → Bool
  | [], pat => pat.isEmpty
  | a :: t, pat => listStarts (a :: t) pat || hasSubL t pat

/-- Model of JavaScript String.prototype.includes. -/
def hasSubstr (s pat : String) : Bool :=
  hasSubL s.data pat.data

/-- One subscription plan entry: PLANS (src/index.js:198-229), keeping the
fields the core logic reads. -/
structure Plan where
  id : String
  priceId : Option String
deriving DecidableEq

/-- The configured plans (src/index.js:198-229): free has no price id,
basic and pro carry the Stripe price identifiers. -/
def PLANS : List Plan :=
  [⟨"free", none⟩,
   ⟨"basic", some "price_1N9Z8x1234567890"⟩,
   ⟨"pro", some "price_1N9Z8y1234567890"⟩]

/-- The fixed placeholder asset substituted on every generation failure. -/
def placeholderUrl : String :=
  "https://modelviewer.dev/shared-assets/models/Astronaut.glb"

/-- The one-time purchase price id used by the download flow
(src/index.js:819). -/
def downloadPriceId : String := "price_1N9Z8z1234567890"

/-- The slice of App state (React useState hooks) the core mutates. -/
structure AppState where
  modelUrl : Option String
  error : String
  isLoading : Bool
  showSignIn : Bool
  showStripeModal : Bool
  redirect : Option String
deriving DecidableEq

/-- The initial App state (src/index.js:693-700). -/
def initialState : AppState :=
  { modelUrl := none, error := "", isLoading := false,
    showSignIn := false, showStripeModal := false, redirect := none }

/-- Network requests the core can issue, in order of issue. -/
inductive Request where
  | csrf
  | generate
  | checkout
deriving DecidableEq

/-- The JavaScript exceptions the embedding can raise. -/
inductive JsError where
  | typeError
deriving DecidableEq

/-- The JSON body of a generation-backend response, restricted to the two
fields the dispatcher reads. -/
structure GenBody where
  error : Option String
  modelUrl : Option String
deriving DecidableEq

/-- Outcome of the generation request/response exchange, as fixed by the
environment. -/
inductive GenResponse where
  | netError
  | httpError
  | jsonError
  | ok (body : GenBody)
deriving DecidableEq

/-- The JSON body of a checkout-session response. -/
structure CheckoutBody where
  url : Option String
deriving DecidableEq

/-- Outcome of the checkout request/response exchange. -/
inductive PayResponse where
  | throws
  | ok (body : CheckoutBody)
deriving DecidableEq

/-- The environment: predetermined outcomes of the two exchanges. -/
structure Env where
  gen : GenResponse
  pay : PayResponse
deriving DecidableEq

/-- The argument object of generateModel (src/index.js:746); every field
may be absent, and download defaults to false. -/
structure GenInput where
  prompt : Option String := none
  width : Option String := none
  height : Option String := none
  depth : Option String := none
  infill : Option JsNum := none
  shellThickness : Option JsNum := none
  image : Option String := none
  download : Bool := false
deriving DecidableEq

/-- Which branch of generateModel produced the final state. The three
placeholder-substituting branches are transportError, backendError and
missingResult; they correspond to the spec's GenerationResult with
isPlaceholder = true. -/
inductive Outcome where
  | validationFailed (e : VErr)
  | transportError
  | backendError
  | errorField
  | missingResult
  | success
deriving DecidableEq

/-- The one-time-purchase blocking condition of payForModel
(src/index.js:844): priceId.startsWith of price underscore, conjoined
with the absence of a current model url and the absence of the substring
sub in the price id, in that order. -/
def oneTimeBlock (priceId renderModelUrl : Option String) : Bool :=
  strStarts (priceId.getD "") "price_" && !(jsTruthyOpt renderModelUrl)
    && !(hasSubstr (priceId.getD "") "sub")

/-- payForModel (src/index.js:837-886). user and renderModelUrl are the
render-captured identity and current model url; st is the mutable state;
env fixes the checkout exchange. Returns the final state and the list of
issued requests. -/
def payForModel (user renderModelUrl : Option String) (st : AppState)
    (env : PayResponse) (priceId : Option String) : AppState × List Request :=
  let st := { st with error := "" }
  if !(jsTruthyOpt priceId) then
    ({ st with error := "This plan is included by default." }, [])
  else if oneTimeBlock priceId renderModelUrl then
    ({ st with error := "Generate a model first before purchasing." }, [])
  else if user = none then
    ({ st with error := "Please sign in to subscribe or purchase.", showSignIn := true }, [])
  else
    let st := { st with showStripeModal := true }
    match env with
    | .throws =>
      ({ st with error := "Checkout error. Please try again.", showStripeModal := false },
       [.csrf, .checkout])
    | .ok body =>
      if jsTruthyOpt body.url then
        ({ st with redirect := body.url }, [.csrf, .checkout])
      else
        ({ st with error := "Failed to initiate checkout.", showStripeModal := false },
         [.csrf, .checkout])

/-- generateModel (src/index.js:746-834). user and userPlan are the
render-captured session values; the render-captured modelUrl equals
st.modelUrl on entry and is what the nested payForModel call reads.
Raises typeError when prompt is absent, because prompt.trim() is
evaluated before any validation. -/
def generateModel (user : Option String) (userPlan : String) (st : AppState)
    (env : Env) (i : GenInput) : Except JsError (AppState × List Request × Outcome) :=
  let renderModelUrl := st.modelUrl
  let st := { st with error := "" }
  match i.prompt with
  | none => .error .typeError
  | some p =>
    match validate p i.image i.width i.height i.depth i.infill i.shellThickness with
    | some e => .ok ({ st with error := errMsg e }, [], .validationFailed e)
    | none =>
      let st := { st with isLoading := true, modelUrl := none }
      match env.gen with
      | .netError =>
        .ok ({ st with
               error := "Network error. Using placeholder preview.",
               modelUrl := some placeholderUrl, isLoading := false },
             [.csrf, .generate], .transportError)
      | .jsonError =>
        .ok ({ st with
               error := "Network error. Using placeholder preview.",
               modelUrl := some placeholderUrl, isLoading := false },
             [.csrf, .generate], .transportError)
      | .httpError =>
        .ok ({ st with
               error := "Failed to generate model. Using placeholder preview.",
               modelUrl := some placeholderUrl, isLoading := false },
             [.csrf, .generate], .backendError)
      | .ok body =>
        if jsTruthyOpt body.error then
          .ok ({ st with error := body.error.getD "", isLoading := false },
               [.csrf, .generate], .errorField)
        else if jsTruthyOpt body.modelUrl then
          let st := { st with modelUrl := body.modelUrl }
          if i.download && userPlan != "pro" then
            let pr := payForModel user renderModelUrl st env.pay (some downloadPriceId)
            .ok ({ pr.1 with isLoading := false }, [Request.csrf, Request.generate] ++ pr.2,
                 .success)
          else
            .ok ({ st with isLoading := false }, [.csrf, .generate], .success)
        else
          .ok ({ st with
                 error := "No model URL returned. Showing placeholder.",
                 modelUrl := some placeholderUrl, isLoading := false },
               [.csrf, .generate], .missingResult)

/-- The JSON body of a plan-lookup response: the plan field may be
absent. -/
structure PlanBody where
  plan : Option String
deriving DecidableEq

/-- fetchUserPlan (src/index.js:720-731): on any thrown failure of the
lookup exchange it returns the string free; on success it returns the
plan field of the body, which may be absent. -/
def fetchUserPlan (env : Except Unit PlanBody) : Option String :=
  match env with
  | .error _ => some "free"
  | .ok body => body.plan

/-- JavaScript plan-or-default: plan or the string free, where undefined
and the empty string are falsy. -/
def jsOrFree (plan : Option String) : String :=
  match plan with
  | none => "free"
  | some s => if s == "" then "free" else s

/-- The session slice owned by the auth listener. -/
structure Session where
  user : Option (String × String)
  userPlan : String
deriving DecidableEq

/-- The onAuthStateChanged listener (src/index.js:704-717): on sign-in it
stores the identity and the looked-up plan defaulted to free; on
sign-out it clears the identity and resets the plan to free. -/
def onAuthStateChanged (u : Option (String × String))
    (env : Except Unit PlanBody) : Session :=
  match u with
  | some uu => { user := some uu, userPlan := jsOrFree (fetchUserPlan env) }
  | none => { user := none, userPlan := "free" }

/-- The final model url of a generateModel run, when it returned. -/
def genOutModelUrl : Except JsError (AppState × List Request × Outcome) → Option (Option String)
  | .ok (s, _, _) => some s.modelUrl
  | .error _ => none

/-- The final inline error message of a generateModel run, when it
returned. -/
def genOutError : Except JsError (AppState × List Request × Outcome) → Option String
  | .ok (s, _, _) => some s.error
  | .error _ => none

/-- The outcome of a generateModel run, when it returned. -/
def genOutOutcome : Except JsError (AppState × List Request × Outcome) → Option Outcome
  | .ok (_, _, o) => some o
  | .error _ => none

/-- A fully valid generator form input, used by concrete instances. -/
def okInput : GenInput :=
  { prompt := some "a box", width := some "10", height := some "20", depth := some "30",
    infill := some ⟨20, 1⟩, shellThickness := some ⟨12, 10⟩, image := none, download := false }

/-! Helper lemmas. -/

/-- On fractions with positive denominators, the executable comparison
JsNum.blt agrees with the strict order of the rational values. -/
theorem JsNum.blt_iff_val (a b : JsNum) (ha : 0 < a.den) (hb : 0 < b.den) :
    JsNum.blt a b = true ↔ JsNum.val a < JsNum.val b := by
  unfold JsNum.blt JsNum.val
  rw [decide_eq_true_eq, div_lt_div_iff₀ (by exact_mod_cast ha) (by exact_mod_cast hb)]
  exact_mod_cast Iff.rfl

/-- The overflow threshold numeral is 2 to the power 1024 minus 2 to
the power 970. -/
theorem f64OverflowThreshold_eq : f64OverflowThreshold.num = 2 ^ 1024 - 2 ^ 970 := by
  norm_num [f64OverflowThreshold]

/-- The underflow threshold numeral is 2 to the power 1075. -/
theorem f64UnderflowThreshold_eq : f64UnderflowThreshold.den = 2 ^ 1075 := by
  norm_num [f64UnderflowThreshold]

/-- Characterization of validDimension: the field must be present and
non-empty, and its numeric value must parse to a numeral whose float64
conversion is finite and greater than zero. -/
theorem validDimension_iff (v : Option String) :
    validDimension v = true ↔
      ∃ s n, v = some s ∧ s ≠ "" ∧ jsNumber s = some n ∧ finitePositive n = true := by
  cases v with
  | none => simp [validDimension, jsTruthyOpt]
  | some s =>
    by_cases hs : s = ""
    · subst hs
      simp [validDimension, jsTruthyOpt]
    · have ht : jsTruthyOpt (some s) = true := by simp [jsTruthyOpt, hs]
      cases hn : jsNumber s with
      | none => simp [validDimension, ht, hn, hs]
      | some n => simp [validDimension, ht, hn, hs]

/-- C1: the validator of generateModel applies its rules in the fixed
order MissingInput, InvalidDimension, InvalidInfill,
InvalidShellThickness, and rejects exactly when: the sanitized trimmed
prompt is empty and no image is present; else some dimension is absent,
empty, non-numeric, non-finite after float64 conversion, or not greater
than 0; else infill lies outside the interval from 0 to 100; else
shellThickness is less than 0.4. The first conjunct characterizes
validDimension (finitePositive is the isFinite-and-positive float64
classification), the second ties the executable fraction order to the
rational order, and the last conjunct shows in particular that an empty
prompt with an image present and otherwise valid fields is accepted. -/
theorem validator_rules_ordered (p : String) (image w h d : Option String)
    (infill shell : Option JsNum) :
    (∀ v, validDimension v = true ↔
      ∃ s n, v = some s ∧ s ≠ "" ∧ jsNumber s = some n ∧ finitePositive n = true) ∧
    (∀ a b : JsNum, 0 < a.den → 0 < b.den →
      (JsNum.blt a b = true ↔ JsNum.val a < JsNum.val b)) ∧
    (validate p image w h d infill shell = some VErr.missingInput ↔
      (sanitizeInput (jsTrim p) = "" ∧ jsTruthyOpt image = false)) ∧
    (validate p image w h d infill shell = some VErr.invalidDimension ↔
      (¬(sanitizeInput (jsTrim p) = "" ∧ jsTruthyOpt image = false) ∧
       ¬(validDimension w = true ∧ validDimension h = true ∧ validDimension d = true))) ∧
    (validate p image w h d infill shell = some VErr.invalidInfill ↔
      (¬(sanitizeInput (jsTrim p) = "" ∧ jsTruthyOpt image = false) ∧
       (validDimension w = true ∧ validDimension h = true ∧ validDimension d = true) ∧
       (jsLtN infill ⟨0, 1⟩ = true ∨ jsGtN infill ⟨100, 1⟩ = true))) ∧
    (validate p image w h d infill shell = some VErr.invalidShellThickness ↔
      (¬(sanitizeInput (jsTrim p) = "" ∧ jsTruthyOpt image = false) ∧
       (validDimension w = true ∧ validDimension h = true ∧ validDimension d = true) ∧
       ¬(jsLtN infill ⟨0, 1⟩ = true ∨ jsGtN infill ⟨100, 1⟩ = true) ∧
       jsLtN shell ⟨4, 10⟩ = true)) ∧
    (validate p image w h d infill shell = none ↔
      (¬(sanitizeInput (jsTrim p) = "" ∧ jsTruthyOpt image = false) ∧
       (validDimension w = true ∧ validDimension h = true ∧ validDimension d = true) ∧
       ¬(jsLtN infill ⟨0, 1⟩ = true ∨ jsGtN infill ⟨100, 1⟩ = true) ∧
       jsLtN shell ⟨4, 10⟩ = false)) := by
  refine ⟨validDimension_iff, JsNum.blt_iff_val, ?_⟩
  unfold validate
  cases h1 : (sanitizeInput (jsTrim p) == "" && !(jsTruthyOpt image)) with
  | true =>
    obtain ⟨ha, hb⟩ : sanitizeInput (jsTrim p) = "" ∧ jsTruthyOpt image = false := by
      simpa using h1
    simp [h1, ha, hb]
  | false =>
    have h1' : ¬(sanitizeInput (jsTrim p) = "" ∧ jsTruthyOpt image = false) := by
      rintro ⟨ha, hb⟩
      simp [ha, hb] at h1
    cases h2 : (validDimension w && validDimension h && validDimension d) with
    | false =>
      have h2' : ¬(validDimension w = true ∧ validDimension h = true ∧
          validDimension d = true) := by
        rintro ⟨e1, e2, e3⟩
        rw [e1, e2, e3] at h2
        simp at h2
      simp [h1, h2, h1', h2']
    | true =>
      have h2' : validDimension w = true ∧ validDimension h = true ∧
          validDimension d = true := by
        simp only [Bool.and_eq_true] at h2
        exact ⟨h2.1.1, h2.1.2, h2.2⟩
      cases h3 : (jsLtN infill ⟨0, 1⟩ || jsGtN infill ⟨100, 1⟩) with
      | true =>
        have h3' : jsLtN infill ⟨0, 1⟩ = true ∨ jsGtN infill ⟨100, 1⟩ = true := by
          simpa [Bool.or_eq_true] using h3
        simp [h1, h2, h3, h1', h2', h3']
      | false =>
        have h3' : ¬(jsLtN infill ⟨0, 1⟩ = true ∨ jsGtN infill ⟨100, 1⟩ = true) := by
          rintro (hx | hx) <;> rw [hx] at h3 <;> simp at h3
        cases h4 : jsLtN shell ⟨4, 10⟩ with
        | true => simp [h1, h2, h3, h4, h1', h2', h3']
        | false => simp [h1, h2, h3, h4, h1', h2', h3']

/-- C1 witness: an empty prompt with an image present and otherwise
valid fields is accepted, and an empty prompt with no image is rejected
with MissingInput. -/
theorem validator_rules_ordered_witness :
    validate "" (some "data:image/png") (some "10") (some "20") (some "30")
      (some ⟨20, 1⟩) (some ⟨12, 10⟩) = none ∧
    validate "" none (some "10") (some "20") (some "30")
      (some ⟨20, 1⟩) (some ⟨12, 10⟩) = some VErr.missingInput := by
  constructor
  · exact ((validator_rules_ordered "" (some "data:image/png") (some "10") (some "20")
      (some "30") (some ⟨20, 1⟩) (some ⟨12, 10⟩)).2.2.2.2.2.2).mpr (by decide)
  · exact ((validator_rules_ordered "" none (some "10") (some "20")
      (some "30") (some ⟨20, 1⟩) (some ⟨12, 10⟩)).2.2.1).mpr (by decide)

/-- C2: whenever validation fails, generateModel issues no network
request and changes nothing but the inline error message; in particular
the current modelUrl and the loading flag are unchanged. -/
theorem validation_failure_no_side_effects
    (user : Option String) (userPlan : String) (st : AppState) (env : Env)
    (i : GenInput) (p : String) (e : VErr)
    (hp : i.prompt = some p)
    (hv : validate p i.image i.width i.height i.depth i.infill i.shellThickness = some e) :
    generateModel user userPlan st env i =
      .ok ({ st with error := errMsg e }, [], .validationFailed e) ∧
    ({ st with error := errMsg e }).modelUrl = st.modelUrl ∧
    ({ st with error := errMsg e }).isLoading = st.isLoading := by
  refine ⟨?_, rfl, rfl⟩
  simp [generateModel, hp, hv]

/-- C2 witness: a concrete invalid input (empty prompt, no image)
leaves the state unchanged apart from the error message and issues no
request. -/
theorem validation_failure_no_side_effects_witness :
    generateModel none "free" initialState { gen := .netError, pay := .throws }
      { prompt := some "" } =
      .ok ({ initialState with error := errMsg VErr.missingInput }, [],
        .validationFailed VErr.missingInput) ∧
    ({ initialState with error := errMsg VErr.missingInput }).modelUrl =
      initialState.modelUrl ∧
    ({ initialState with error := errMsg VErr.missingInput }).isLoading =
      initialState.isLoading :=
  validation_failure_no_side_effects none "free" initialState
    { gen := .netError, pay := .throws } { prompt := some "" } ""
    VErr.missingInput rfl (by decide)

/-- C8: the claim that no invocation of generateModel can raise an
uncaught exception fails on the code: the download-button invocation
passes only the download flag, so prompt is undefined and the call to
prompt.trim() raises a TypeError before any validation or fallback can
run; no placeholder and no inline message is produced. -/
theorem download_invocation_throws :
    generateModel (some "user-1") "free"
      { initialState with modelUrl := some "https://x/y.glb" }
      { gen := .netError, pay := .throws }
      { download := true } = .error .typeError := rfl

/-- payForModel never writes the modelUrl slot: whatever branch runs,
the resulting state keeps the incoming modelUrl. -/
theorem payForModel_modelUrl (user m : Option String) (st : AppState)
    (env : PayResponse) (pid : Option String) :
    (payForModel user m st env pid).1.modelUrl = st.modelUrl := by
  cases env with
  | throws =>
    unfold payForModel
    split_ifs <;> rfl
  | ok body =>
    unfold payForModel
    split_ifs <;> try rfl
    by_cases hb : jsTruthyOpt body.url = true <;> simp [hb]

/-- C3 counterexample: a success response whose body carries both a
non-empty error field and a modelUrl field does not set the generation
state to that URL; the error branch runs first and leaves modelUrl
null. -/
theorem success_with_error_field_keeps_null :
    genOutModelUrl (generateModel (some "u1") "free" initialState
      { gen := GenResponse.ok { error := some "boom", modelUrl := some "https://x/y.glb" },
        pay := PayResponse.throws } okInput) = some none ∧
    genOutModelUrl (generateModel (some "u1") "free" initialState
      { gen := GenResponse.ok { error := some "boom", modelUrl := some "https://x/y.glb" },
        pay := PayResponse.throws } okInput) ≠ some (some "https://x/y.glb") := by
  exact ⟨by decide, by decide⟩

/-- C3 amended: for every dispatch whose response has success status and
whose JSON body contains a non-empty modelUrl field and no non-empty
error field, the resulting generation state equals exactly that URL and
the placeholder is not substituted (the outcome is the success branch,
not one of the three placeholder-substituting branches). -/
theorem success_modelUrl_sets_result
    (user : Option String) (userPlan : String) (st : AppState) (env : Env)
    (i : GenInput) (p : String) (body : GenBody)
    (hp : i.prompt = some p)
    (hv : validate p i.image i.width i.height i.depth i.infill i.shellThickness = none)
    (hg : env.gen = GenResponse.ok body)
    (he : jsTruthyOpt body.error = false)
    (hm : jsTruthyOpt body.modelUrl = true) :
    genOutModelUrl (generateModel user userPlan st env i) = some body.modelUrl ∧
    genOutOutcome (generateModel user userPlan st env i) = some Outcome.success := by
  cases hd : (i.download && (userPlan != "pro")) with
  | false =>
    simp [generateModel, hp, hv, hg, he, hm, hd, genOutModelUrl, genOutOutcome]
  | true =>
    simp [generateModel, hp, hv, hg, he, hm, hd, genOutModelUrl, genOutOutcome,
      payForModel_modelUrl]

/-- C3 amended witness: a success body with the URL and no error field
yields exactly that URL as the non-placeholder result. -/
theorem success_modelUrl_sets_result_witness :
    genOutModelUrl (generateModel (some "u1") "free" initialState
      { gen := GenResponse.ok { error := none, modelUrl := some "https://x/y.glb" },
        pay := PayResponse.throws } okInput) = some (some "https://x/y.glb") ∧
    genOutOutcome (generateModel (some "u1") "free" initialState
      { gen := GenResponse.ok { error := none, modelUrl := some "https://x/y.glb" },
        pay := PayResponse.throws } okInput) = some Outcome.success :=
  success_modelUrl_sets_result (some "u1") "free" initialState
    { gen := GenResponse.ok { error := none, modelUrl := some "https://x/y.glb" },
      pay := PayResponse.throws } okInput "a box"
    { error := none, modelUrl := some "https://x/y.glb" } rfl (by decide) rfl rfl (by decide)

/-- C4: on a transport failure (the fetch or the JSON parse throws) or a
non-success response status, generateModel reports an error, substitutes
the fixed placeholder asset URL, clears the loading flag, and issues the
generation request exactly once (no automatic retry). -/
theorem failure_substitutes_placeholder
    (user : Option String) (userPlan : String) (st : AppState) (env : Env)
    (i : GenInput) (p : String)
    (hp : i.prompt = some p)
    (hv : validate p i.image i.width i.height i.depth i.infill i.shellThickness = none) :
    (env.gen = GenResponse.netError → generateModel user userPlan st env i =
      .ok ({ st with
             error := "Network error. Using placeholder preview.",
             isLoading := false, modelUrl := some placeholderUrl },
           [.csrf, .generate], .transportError)) ∧
    (env.gen = GenResponse.jsonError → generateModel user userPlan st env i =
      .ok ({ st with
             error := "Network error. Using placeholder preview.",
             isLoading := false, modelUrl := some placeholderUrl },
           [.csrf, .generate], .transportError)) ∧
    (env.gen = GenResponse.httpError → generateModel user userPlan st env i =
      .ok ({ st with
             error := "Failed to generate model. Using placeholder preview.",
             isLoading := false, modelUrl := some placeholderUrl },
           [.csrf, .generate], .backendError)) ∧
    ([Request.csrf, Request.generate].count Request.generate = 1) := by
  refine ⟨?_, ?_, ?_, by decide⟩ <;> intro hg <;> simp [generateModel, hp, hv, hg]

/-- C4 witness: a network failure on a valid input yields the
placeholder, the network-error message, a cleared loading flag and a
single generation request. -/
theorem failure_substitutes_placeholder_witness :
    generateModel none "free" initialState { gen := .netError, pay := .throws } okInput =
      .ok ({ initialState with
             error := "Network error. Using placeholder preview.",
             isLoading := false, modelUrl := some placeholderUrl },
           [.csrf, .generate], .transportError) :=
  (failure_substitutes_placeholder none "free" initialState
    { gen := .netError, pay := .throws } okInput "a box" rfl (by decide)).1 rfl

/-- C5 counterexample: a success response whose body lacks modelUrl but
carries a non-empty error field does not substitute the placeholder and
does not report the missing-result message; it surfaces the body error
and leaves modelUrl null. -/
theorem success_error_field_no_placeholder :
    genOutModelUrl (generateModel (some "u1") "free" initialState
      { gen := GenResponse.ok { error := some "boom", modelUrl := none },
        pay := PayResponse.throws } okInput) = some none ∧
    genOutModelUrl (generateModel (some "u1") "free" initialState
      { gen := GenResponse.ok { error := some "boom", modelUrl := none },
        pay := PayResponse.throws } okInput) ≠ some (some placeholderUrl) ∧
    genOutError (generateModel (some "u1") "free" initialState
      { gen := GenResponse.ok { error := some "boom", modelUrl := none },
        pay := PayResponse.throws } okInput) = some "boom" := by
  exact ⟨by decide, by decide, by decide⟩

/-- C5 amended: for every dispatch whose response has success status and
whose JSON body has no non-empty error field and no non-empty modelUrl
field, generateModel reports the missing-result error and substitutes
the fixed placeholder; bodies carrying a non-empty error field instead
surface that error without a placeholder. -/
theorem success_missing_modelUrl_placeholder
    (user : Option String) (userPlan : String) (st : AppState) (env : Env)
    (i : GenInput) (p : String) (body : GenBody)
    (hp : i.prompt = some p)
    (hv : validate p i.image i.width i.height i.depth i.infill i.shellThickness = none)
    (hg : env.gen = GenResponse.ok body)
    (he : jsTruthyOpt body.error = false)
    (hm : jsTruthyOpt body.modelUrl = false) :
    generateModel user userPlan st env i =
      .ok ({ st with
             error := "No model URL returned. Showing placeholder.",
             isLoading := false, modelUrl := some placeholderUrl },
           [.csrf, .generate], .missingResult) := by
  simp [generateModel, hp, hv, hg, he, hm]

/-- C5 amended witness: the empty success body yields the placeholder
and the missing-result message. -/
theorem success_missing_modelUrl_placeholder_witness :
    generateModel (some "u1") "free" initialState
      { gen := GenResponse.ok { error := none, modelUrl := none },
        pay := PayResponse.throws } okInput =
      .ok ({ initialState with
             error := "No model URL returned. Showing placeholder.",
             isLoading := false, modelUrl := some placeholderUrl },
           [.csrf, .generate], .missingResult) :=
  success_missing_modelUrl_placeholder (some "u1") "free" initialState
    { gen := GenResponse.ok { error := none, modelUrl := none },
      pay := PayResponse.throws } okInput "a box"
    { error := none, modelUrl := none } rfl (by decide) rfl rfl rfl

/-- C6: a single call to payForModel is a pure decision on its arguments
(no memory between calls) and decides exactly one of four outcomes, with
the checks applied in source order: a falsy price identifier means no
action beyond the default-plan message; else the one-time-purchase check
blocks asking to generate a model first; else a missing identity blocks
asking to sign in; else the checkout dispatch is issued. -/
theorem payment_gate_decision (user m : Option String) (st : AppState)
    (env : PayResponse) (pid : Option String) :
    (jsTruthyOpt pid = false →
      payForModel user m st env pid =
        ({ st with error := "This plan is included by default." }, [])) ∧
    (jsTruthyOpt pid = true → oneTimeBlock pid m = true →
      payForModel user m st env pid =
        ({ st with error := "Generate a model first before purchasing." }, [])) ∧
    (jsTruthyOpt pid = true → oneTimeBlock pid m = false → user = none →
      payForModel user m st env pid =
        ({ st with
           error := "Please sign in to subscribe or purchase.",
           showSignIn := true }, [])) ∧
    (jsTruthyOpt pid = true → oneTimeBlock pid m = false → user ≠ none →
      Request.checkout ∈ (payForModel user m st env pid).2) := by
  refine ⟨?_, ?_, ?_, ?_⟩
  · intro h
    simp [payForModel, h]
  · intro h1 h2
    simp [payForModel, h1, h2]
  · intro h1 h2 h3
    simp [payForModel, h1, h2, h3]
  · intro h1 h2 h3
    cases env with
    | throws => simp [payForModel, h1, h2, h3]
    | ok b => by_cases hb : jsTruthyOpt b.url = true <;> simp [payForModel, h1, h2, h3, hb]

/-- C6 witness: with a valid price identifier, a generation result
present and no identity, the gate blocks asking to sign in. -/
theorem payment_gate_decision_witness :
    payForModel none (some "https://x/y.glb") initialState PayResponse.throws
      (some "price_1N9Z8x1234567890") =
      ({ initialState with
         error := "Please sign in to subscribe or purchase.",
         showSignIn := true }, []) :=
  (payment_gate_decision none (some "https://x/y.glb") initialState PayResponse.throws
    (some "price_1N9Z8x1234567890")).2.2.1 (by decide) (by decide) rfl

/-- C7: the plan lookup defaults to free on any failure: a thrown lookup
returns the string free; after sign-in the stored plan is free whenever
the looked-up plan is absent; and sign-out resets the plan to free. -/
theorem plan_defaults_to_free :
    (∀ e : Unit, fetchUserPlan (.error e) = some "free") ∧
    (∀ (u : String × String) (env : Except Unit PlanBody),
      fetchUserPlan env = none → (onAuthStateChanged (some u) env).userPlan = "free") ∧
    (∀ env : Except Unit PlanBody, (onAuthStateChanged none env).userPlan = "free") := by
  refine ⟨fun _ => rfl, ?_, fun _ => rfl⟩
  intro u env h
  simp [onAuthStateChanged, jsOrFree, h]

/-- C7 witness: a successful lookup whose body lacks the plan field
leaves the session on the free plan. -/
theorem plan_defaults_to_free_witness :
    (onAuthStateChanged (some ("a@b.c", "uid-1")) (.ok { plan := none })).userPlan = "free" :=
  plan_defaults_to_free.2.1 ("a@b.c", "uid-1") (.ok { plan := none }) rfl

/-- Characters produced by sanitizeChar are never one of the four
special characters. -/
theorem mem_sanitizeChar_not_special (c d : Char) (hd : d ∈ sanitizeChar c) :
    d ≠ '<' ∧ d ≠ '>' ∧ d ≠ '"' ∧ d ≠ apos := by
  unfold sanitizeChar at hd
  split_ifs at hd with h1 h2 h3 h4 h5
  · have e : "&amp;".data = ['&', 'a', 'm', 'p', ';'] := rfl
    rw [e] at hd
    simp only [List.mem_cons, List.not_mem_nil, or_false] at hd
    rcases hd with rfl | rfl | rfl | rfl | rfl <;> decide
  · have e : "&lt;".data = ['&', 'l', 't', ';'] := rfl
    rw [e] at hd
    simp only [List.mem_cons, List.not_mem_nil, or_false] at hd
    rcases hd with rfl | rfl | rfl | rfl <;> decide
  · have e : "&gt;".data = ['&', 'g', 't', ';'] := rfl
    rw [e] at hd
    simp only [List.mem_cons, List.not_mem_nil, or_false] at hd
    rcases hd with rfl | rfl | rfl | rfl <;> decide
  · have e : "&quot;".data = ['&', 'q', 'u', 'o', 't', ';'] := rfl
    rw [e] at hd
    simp only [List.mem_cons, List.not_mem_nil, or_false] at hd
    rcases hd with rfl | rfl | rfl | rfl | rfl | rfl <;> decide
  · have e : "&#x27;".data = ['&', '#', 'x', '2', '7', ';'] := rfl
    rw [e] at hd
    simp only [List.mem_cons, List.not_mem_nil, or_false] at hd
    rcases hd with rfl | rfl | rfl | rfl | rfl | rfl <;> decide
  · simp only [List.mem_singleton] at hd
    subst hd
    refine ⟨fun e => h2 ?_, fun e => h3 ?_, fun e => h4 ?_, fun e => h5 ?_⟩ <;> simp [e]

/-- Characters of a sanitized list are never one of the four special
characters. -/
theorem mem_sanitizeL_not_special (l : List Char) (d : Char) (hd : d ∈ sanitizeL l) :
    d ≠ '<' ∧ d ≠ '>' ∧ d ≠ '"' ∧ d ≠ apos := by
  induction l with
  | nil => simp [sanitizeL] at hd
  | cons c t ih =>
    simp only [sanitizeL, List.mem_append] at hd
    rcases hd with hd | hd
    · exact mem_sanitizeChar_not_special c d hd
    · exact ih hd

/-- sanitizeChar never erases a character. -/
theorem one_le_sanitizeChar_length (c : Char) : 1 ≤ (sanitizeChar c).length := by
  unfold sanitizeChar
  split_ifs <;> simp

/-- Sanitizing never shortens a list. -/
theorem sanitizeL_length_ge (l : List Char) : l.length ≤ (sanitizeL l).length := by
  induction l with
  | nil => simp [sanitizeL]
  | cons c t ih =>
    simp only [sanitizeL, List.length_append, List.length_cons]
    have := one_le_sanitizeChar_length c
    omega

/-- An ampersand in the input leaves an ampersand in the output (the
replacement entity itself starts with one). -/
theorem amp_mem_sanitizeL (l : List Char) (h : '&' ∈ l) : '&' ∈ sanitizeL l := by
  induction l with
  | nil => simp at h
  | cons c t ih =>
    simp only [sanitizeL, List.mem_append]
    rcases List.mem_cons.mp h with h0 | h0
    · left
      rw [← h0]
      decide
    · exact Or.inr (ih h0)

/-- Sanitizing a list containing an ampersand strictly lengthens it. -/
theorem sanitizeL_length_lt (l : List Char) (h : '&' ∈ l) :
    l.length < (sanitizeL l).length := by
  induction l with
  | nil => simp at h
  | cons c t ih =>
    simp only [sanitizeL, List.length_append, List.length_cons]
    rcases List.mem_cons.mp h with h0 | h0
    · have hc : (sanitizeChar c).length = 5 := by
        rw [← h0]
        decide
      have := sanitizeL_length_ge t
      omega
    · have h1 := ih h0
      have h2 := one_le_sanitizeChar_length c
      omega

/-- C9: the output of sanitizeInput never contains any of the four
characters less-than, greater-than, double quote or apostrophe (each is
replaced by its HTML entity); and because the ampersand is also
rewritten, sanitizeInput is not idempotent: on any string containing an
ampersand, applying it twice differs from applying it once. -/
theorem sanitize_removes_specials (s : String) :
    (∀ c ∈ (sanitizeInput s).data, c ≠ '<' ∧ c ≠ '>' ∧ c ≠ '"' ∧ c ≠ apos) ∧
    ('&' ∈ s.data → sanitizeInput (sanitizeInput s) ≠ sanitizeInput s) := by
  constructor
  · intro c hc
    exact mem_sanitizeL_not_special s.data c hc
  · intro h heq
    have h1 : '&' ∈ sanitizeL s.data := amp_mem_sanitizeL s.data h
    have h2 : (sanitizeL s.data).length < (sanitizeL (sanitizeL s.data)).length :=
      sanitizeL_length_lt _ h1
    have h3 : sanitizeL (sanitizeL s.data) = sanitizeL s.data := congrArg String.data heq
    rw [h3] at h2
    omega

/-- C9 witness: the ampersand itself shows the non-idempotence. -/
theorem sanitize_removes_specials_witness :
    '&' ∈ "&".data ∧ sanitizeInput (sanitizeInput "&") ≠ sanitizeInput "&" :=
  ⟨by decide, (sanitize_removes_specials "&").2 (by decide)⟩

/-- C10: for every price identifier matching the one-time pattern (it
starts with the price prefix and does not contain the substring sub),
payForModel blocks with the generate-a-model-first message whenever no
model url is present, even when an identity is present, because the
needs-model check precedes the sign-in check; and every configured plan
price identifier, including both subscription price ids, matches that
pattern. -/
theorem oneTime_check_precedes_signin :
    (∀ (user m : Option String) (st : AppState) (env : PayResponse) (s : String),
      strStarts s "price_" = true → hasSubstr s "sub" = false → jsTruthyOpt m = false →
      payForModel user m st env (some s) =
        ({ st with error := "Generate a model first before purchasing." }, [])) ∧
    (PLANS.all fun pl =>
      match pl.priceId with
      | none => true
      | some s => strStarts s "price_" && !(hasSubstr s "sub")) = true := by
  constructor
  · intro user m st env s h1 h2 h3
    have hs : s ≠ "" := by
      rintro rfl
      exact absurd h1 (by decide)
    have ht : jsTruthyOpt (some s) = true := by simp [jsTruthyOpt, hs]
    have hb : oneTimeBlock (some s) m = true := by
      simp [oneTimeBlock, h1, h2, h3]
    simp [payForModel, ht, hb]
  · decide

/-- C10 witness: the configured basic-plan subscription price id is
treated as a one-time purchase, so a signed-in user with no generated
model is blocked with the generate-a-model-first message. -/
theorem oneTime_check_precedes_signin_witness :
    payForModel (some "uid-1") none initialState PayResponse.throws
      (some "price_1N9Z8x1234567890") =
      ({ initialState with error := "Generate a model first before purchasing." }, []) :=
  oneTime_check_precedes_signin.1 (some "uid-1") none initialState PayResponse.throws
    "price_1N9Z8x1234567890" (by decide) (by decide) rfl

end Amodei
